import Mathlib

/-!
Verification development for the `hue` conversational relay.

Shallow embedding of:
- the data model and memory-store operations (src/supabase.ts, including the
  memory functions and the `UNIQUE(user_id, key)` schema),
- the persona module: `buildMemoryContext`, `formatResponse`, `errorResponses`
  (persona.ts, whose full text is embedded in src/README.md),
- the inference-status value and the `/chat` request pipeline
  (src/cli.ts, `app.post('/chat')` and `app.get('/memories/:userId')`).

External I/O (the Supabase queries and the Ollama HTTP calls) is modelled by
passing the outcome of each call as an explicit input; the definitions below
reproduce exactly what the TypeScript does with those outcomes.
-/

namespace Hue

/-- `Conversation` row (src/supabase.ts, interface `Conversation`).
`metadata` is a JSON object in the source; modelled as string pairs. -/
structure Conversation where
  id : String
  user_id : String
  message : String
  response : String
  created_at : String
  metadata : List (String × String)
  deriving DecidableEq, Repr

/-- `Memory` row (src/supabase.ts, interface `Memory`). -/
structure Memory where
  id : String
  user_id : String
  key : String
  value : String
  created_at : String
  updated_at : String
  deriving DecidableEq, Repr

/-- Persona record type (persona.ts / src/README.md, interface `HuePersona`). -/
structure HuePersona where
  name : String
  version : String
  description : String
  systemPrompt : String
  traits : List String
  capabilities : List String
  deriving DecidableEq, Repr

/-- The `huePersona` constant (persona.ts / src/README.md). -/
def huePersona : HuePersona :=
  { name := "Hue"
    version := "1.0.0"
    description := "A helpful AI assistant with persistent memory and a warm, conversational personality"
    systemPrompt := "You are Hue, a helpful AI assistant with persistent memory. You have the ability to remember past conversations and interactions with users.\n\nKey traits:\n- Friendly and conversational\n- Remembers context from previous conversations\n- Provides helpful, accurate information\n- Maintains a consistent personality\n- Uses memory to provide more personalized responses\n\nWhen responding:\n- Reference past conversations when relevant\n- Build on previous context\n- Be warm and engaging\n- Provide thoughtful, well-reasoned answers\n- Ask clarifying questions when needed\n\nYou have access to conversation history and can recall previous interactions to provide more contextual and personalized responses."
    traits := ["Friendly and approachable", "Patient and understanding",
      "Knowledgeable and helpful", "Consistent in personality",
      "Good at remembering context", "Warm and conversational"]
    capabilities := ["Remember past conversations", "Provide contextual responses",
      "Store and recall user preferences", "Maintain conversation continuity",
      "Adapt responses based on history", "Ask clarifying questions when needed"] }

/-- The `errorResponses` constant (persona.ts / src/README.md). -/
structure ErrorResponses where
  memoryError : String
  modelError : String
  networkError : String
  deriving DecidableEq, Repr

/-- The `errorResponses` object (persona.ts / src/README.md). -/
def errorResponses : ErrorResponses :=
  { memoryError := "I\x27m having trouble accessing my memory right now, but I\x27m still here to help!"
    modelError := "I\x27m experiencing some technical difficulties. Please try again in a moment."
    networkError := "I\x27m having trouble connecting right now. Please check your connection and try again." }

/-- JavaScript `array.slice(-n)`: the last `n` elements (all of them when the
array has fewer than `n`). -/
def jsSliceLast (n : Nat) (l : List α) : List α :=
  l.drop (l.length - n)

/-- `buildMemoryContext` (persona.ts / src/README.md lines 323-344), translated
statement by statement: `context` starts empty; if there are recent
conversations, append the history header and then, for each element of
`recentConversations.slice(-5)` with its index inside the slice, append the
numbered "User:" line and the "   Hue:" line; if there are memories, append the
preferences header and one "- key: value" line per memory.  The `userId`
parameter is unused in the source body as well. -/
def buildMemoryContext (userId : String) (recentConversations : List Conversation)
    (userMemories : List Memory) : String :=
  let context := ""
  let context :=
    if recentConversations.length > 0 then
      ((jsSliceLast 5 recentConversations).enum).foldl
        (fun ctx p =>
          ctx ++ Nat.repr (p.1 + 1) ++ (". User: ") ++ p.2.message ++ ("\n")
            ++ ("   Hue: ") ++ p.2.response ++ ("\n"))
        (context ++ ("\n\nRecent conversation history:\n"))
    else context
  let context :=
    if userMemories.length > 0 then
      userMemories.foldl
        (fun ctx m => ctx ++ ("- ") ++ m.key ++ (": ") ++ m.value ++ ("\n"))
        (context ++ ("\n\nUser preferences and memories:\n"))
    else context
  context

/-- `formatResponse` (persona.ts / src/README.md lines 347-352). -/
def formatResponse (response : String) (includePersonality : Bool) : String :=
  if includePersonality = false then response
  else response.trim

/-- Plain concatenation of a list of strings (used to state properties of the
accumulating folds above). -/
def strConcat : List String → String
  | [] => ""
  | s :: rest => s ++ strConcat rest

/-- Helper for `containsStr`: does `pat` occur as a contiguous run of `l`? -/
def hasInfixAux (pat : List Char) : List Char → Bool
  | [] => pat.isEmpty
  | c :: rest => (List.isPrefixOf pat (c :: rest)) || hasInfixAux pat rest

/-- Decidable substring test on the underlying character lists. -/
def containsStr (s pattern : String) : Bool :=
  hasInfixAux pattern.data s.data

/-- Helper for `linesOf`: split a character list at every newline. -/
def splitLinesAux (acc : List Char) : List Char → List String
  | [] => [String.mk acc.reverse]
  | c :: rest =>
    if c = ('\n' : Char) then String.mk acc.reverse :: splitLinesAux [] rest
    else splitLinesAux (c :: acc) rest

/-- The lines of a string (JavaScript `s.split("\n")` semantics: empty pieces
kept, including around leading/trailing newlines). -/
def linesOf (s : String) : List String :=
  splitLinesAux [] s.data

/-- The row predicate that `storeMemory`, `recallMemory` and `deleteMemory`
filter on: the row for the given `(userId, key)` pair. -/
def matchesUserKey (userId key : String) (m : Memory) : Bool :=
  m.user_id == userId && m.key == key

/-- Store semantics of `storeMemory` (src/supabase.ts lines 158-185): a
Supabase `.upsert` into `memories`, whose `UNIQUE(user_id, key)` constraint
(schema in `initializeDatabase`, src/supabase.ts lines 68-83) resolves a
conflict by updating `value` and `updated_at` of the existing row, and inserts
a fresh row otherwise.  `id` and `created_at` of a fresh row are generated by
the database; `created_at` is modelled by the operation timestamp and `id` by
the empty string (neither matters to the uniqueness invariant). -/
def storeMemoryModel (rows : List Memory) (userId key value now : String) : List Memory :=
  if rows.any (matchesUserKey userId key) then
    rows.map (fun m =>
      if matchesUserKey userId key m then { m with value := value, updated_at := now } else m)
  else
    rows ++ [{ id := "", user_id := userId, key := key, value := value,
               created_at := now, updated_at := now }]

/-- Store semantics of `deleteMemory` (src/supabase.ts lines 240-261): delete
every row matching the `(userId, key)` pair. -/
def deleteMemoryModel (rows : List Memory) (userId key : String) : List Memory :=
  rows.filter (fun m => !(matchesUserKey userId key m))

/-- Two rows collide on the `UNIQUE(user_id, key)` constraint. -/
def sameUserKey (a b : Memory) : Bool :=
  a.user_id == b.user_id && a.key == b.key

/-- At most one row per `(user_id, key)` pair. -/
def factsUnique : List Memory → Bool
  | [] => true
  | m :: rest => !(rest.any (sameUserKey m)) && factsUnique rest

/-- The row stored under a `(userId, key)` pair, if any. -/
def findFact (rows : List Memory) (userId key : String) : Option Memory :=
  rows.find? (matchesUserKey userId key)

/-- The write operations the source performs on the `memories` table. -/
inductive MemOp where
  | storeOp (userId key value now : String)
  | deleteOp (userId key : String)
  deriving DecidableEq, Repr

/-- Run a sequence of `memories`-table operations. -/
def applyMemOps (rows : List Memory) : List MemOp → List Memory
  | [] => rows
  | MemOp.storeOp u k v t :: rest => applyMemOps (storeMemoryModel rows u k v t) rest
  | MemOp.deleteOp u k :: rest => applyMemOps (deleteMemoryModel rows u k) rest

/-- `recallRecentConversations` (src/supabase.ts lines 131-153): returns the
query's rows (ordered `created_at` descending, i.e. most-recent-first, at most
`limit` of them) and returns `[]` if the query fails — the failure is only
logged, never rethrown.  The query outcome is the explicit argument. -/
def recallRecentConversations (queryResult : Except String (List Conversation)) :
    List Conversation :=
  match queryResult with
  | Except.error _ => []
  | Except.ok rows => rows

/-- `recallAllMemories` (src/supabase.ts lines 217-235): the rows on success
and `[]` on store failure — the failure is only logged, never rethrown. -/
def recallAllMemories (queryResult : Except String (List Memory)) : List Memory :=
  match queryResult with
  | Except.error _ => []
  | Except.ok rows => rows

/-- Result shape of `checkOllamaStatus` (src/utils/ollama.ts lines 157-190). -/
structure OllamaStatus where
  isRunning : Bool
  modelAvailable : Bool
  error : Option String
  deriving DecidableEq, Repr

/-- Body of a POST `/chat` request.  `message`/`userId` are `none` when the
field is absent; `stream` defaults to `false` in the source destructuring. -/
structure ChatRequestBody where
  message : Option String
  userId : Option String
  stream : Bool
  deriving DecidableEq, Repr

/-- JavaScript falsiness of `message` / `userId` in `if (!message || !userId)`
(src/cli.ts line 166): absent (undefined) and empty-string values are falsy. -/
def falsyOpt : Option String → Bool
  | none => true
  | some s => s == ""

/-- Behaviour of the backend stream opened by `ollamaStream` for this request:
either it completes, having yielded `chunks`, or it raises after yielding
`delivered`. -/
inductive StreamBehavior where
  | success (chunks : List String)
  | failed (delivered : List String)
  deriving DecidableEq, Repr

/-- Outcomes of the external calls the `/chat` handler can make, passed in
explicitly: the status probe, the two store reads, the non-streaming
completion (`Except.error` when `ollamaRequest` throws), the stream behaviour,
and whether the `logConversation` insert succeeds. -/
structure ChatEnv where
  status : OllamaStatus
  recallConvsResult : Except String (List Conversation)
  recallMemsResult : Except String (List Memory)
  generateResult : Except String String
  streamBehavior : StreamBehavior
  insertOk : Bool
  deriving Repr

/-- Observable calls the `/chat` handler makes, in order. -/
inductive Event where
  | checkStatus
  | recallConversations (userId : String) (limit : Nat)
  | recallMemories (userId : String)
  | generate (prompt : String)
  | insertConversation (userId message response : String)
  deriving DecidableEq, Repr

/-- What the `/chat` handler sends back: an error status with body, the
non-streaming JSON body (its `response` field; `conversationId` and
`timestamp` are a constant and a clock read), or the chunked `text/plain`
stream, as the list of strings written to it. -/
inductive ChatReply where
  | httpError (status : Nat) (error : String) (details : Option String)
  | json (response : String)
  | streamBody (chunks : List String)
  deriving DecidableEq, Repr

/-- Result of one `/chat` request: the reply, the calls made, and the
conversation rows actually inserted. -/
structure ChatOutcome where
  reply : ChatReply
  events : List Event
  appended : List Conversation
  deriving DecidableEq, Repr

/-- The row `logConversation` inserts (src/supabase.ts memory section lines
98-126): user_id, message, response and `{}` metadata; `id` and `created_at`
are database-generated, modelled as empty strings. -/
def mkConversation (userId message response : String) : Conversation :=
  { id := "", user_id := userId, message := message, response := response,
    created_at := "", metadata := [] }

/-- The prompt assembled by the `/chat` handler (src/cli.ts line 199). -/
def chatFullPrompt (userId message : String) (recentConversations : List Conversation)
    (userMemories : List Memory) : String :=
  huePersona.systemPrompt ++ ("\n\n")
    ++ buildMemoryContext userId recentConversations userMemories
    ++ ("\n\nUser: ") ++ message ++ ("\nHue:")

/-- The POST `/chat` handler (src/cli.ts lines 162-248), step by step:
validate `message`/`userId`; probe Ollama and reply 503 if it is down or the
model is absent; recall up to 5 recent conversations and all memories (both
degrade to `[]` on store failure inside the recall functions); build the
prompt; then either relay the stream — appending the `modelError` fallback and
ending the stream if it raises, logging the accumulated text as one
conversation otherwise — or take the whole response, trim it via
`formatResponse`, log it, and reply with JSON.  A thrown `ollamaRequest`
reaches the outer catch (500). -/
def postChat (env : ChatEnv) (body : ChatRequestBody) : ChatOutcome :=
  if falsyOpt body.message || falsyOpt body.userId then
    { reply := ChatReply.httpError 400 ("Missing required fields: message and userId") none
      events := []
      appended := [] }
  else
    let message := body.message.getD ""
    let userId := body.userId.getD ""
    if env.status.isRunning = false then
      { reply := ChatReply.httpError 503 ("Ollama is not running") env.status.error
        events := [Event.checkStatus]
        appended := [] }
    else if env.status.modelAvailable = false then
      { reply := ChatReply.httpError 503 ("Model not available") env.status.error
        events := [Event.checkStatus]
        appended := [] }
    else
      let recentConversations := recallRecentConversations env.recallConvsResult
      let userMemories := recallAllMemories env.recallMemsResult
      let fullPrompt := chatFullPrompt userId message recentConversations userMemories
      let baseEvents := [Event.checkStatus, Event.recallConversations userId 5,
        Event.recallMemories userId]
      if body.stream then
        match env.streamBehavior with
        | StreamBehavior.success chunks =>
          let fullResponse := chunks.foldl (fun acc c => acc ++ c) ""
          { reply := ChatReply.streamBody chunks
            events := baseEvents ++ [Event.generate fullPrompt,
              Event.insertConversation userId message fullResponse]
            appended := if env.insertOk then [mkConversation userId message fullResponse] else [] }
        | StreamBehavior.failed delivered =>
          { reply := ChatReply.streamBody (delivered ++ [("\n\n") ++ errorResponses.modelError])
            events := baseEvents ++ [Event.generate fullPrompt]
            appended := [] }
      else
        match env.generateResult with
        | Except.ok response =>
          let formattedResponse := formatResponse response true
          { reply := ChatReply.json formattedResponse
            events := baseEvents ++ [Event.generate fullPrompt,
              Event.insertConversation userId message formattedResponse]
            appended := if env.insertOk then [mkConversation userId message formattedResponse] else [] }
        | Except.error e =>
          { reply := ChatReply.httpError 500 ("Failed to process chat request") (some e)
            events := baseEvents ++ [Event.generate fullPrompt]
            appended := [] }

/-- Is an event an insert into `conversations`? -/
def isInsertEvent : Event → Bool
  | Event.insertConversation _ _ _ => true
  | _ => false

/-- Number of conversation-insert attempts in a trace. -/
def countInsertEvents (events : List Event) : Nat :=
  events.countP isInsertEvent

/-- Reply of GET `/memories/:userId`. -/
inductive MemoriesReply where
  | ok (memories : List Memory)
  | serverError (error : String)
  deriving DecidableEq, Repr

/-- The GET `/memories/:userId` handler (src/cli.ts lines 251-262): it calls
`recallAllMemories` and replies 200 with the list.  The route's catch would
reply 500, but `recallAllMemories` (src/supabase.ts lines 217-235) catches
every store failure internally and returns `[]`, so the handler body cannot
throw on a store failure and the 500 branch is unreachable for one. -/
def getMemoriesForUser (queryResult : Except String (List Memory)) : Nat × MemoriesReply :=
  (200, MemoriesReply.ok (recallAllMemories queryResult))

/-- One "N. User: ... / Hue: ..." pair as `buildMemoryContext` renders it,
with `N` the 1-based index inside the rendered window. -/
def renderPairR (p : Nat × Conversation) : String :=
  Nat.repr (p.1 + 1) ++ (". User: ") ++ p.2.message ++ ("\n")
    ++ ("   Hue: ") ++ p.2.response ++ ("\n")

/-- One "- key: value" fact line as `buildMemoryContext` renders it. -/
def factLineR (m : Memory) : String :=
  ("- ") ++ m.key ++ (": ") ++ m.value ++ ("\n")

/-- Declarative form of the history section `buildMemoryContext` produces:
header plus the rendered `slice(-5)` window in input order. -/
def historySectionR (recentConversations : List Conversation) : String :=
  if recentConversations.length > 0 then
    ("\n\nRecent conversation history:\n")
      ++ strConcat (((jsSliceLast 5 recentConversations).enum).map renderPairR)
  else ""

/-- Declarative form of the facts section `buildMemoryContext` produces. -/
def factsSectionR (userMemories : List Memory) : String :=
  if userMemories.length > 0 then
    ("\n\nUser preferences and memories:\n") ++ strConcat (userMemories.map factLineR)
  else ""

/-- The history rendering claim C1 asserts, following the claim's words: keep
at most the 5 most recent records of the most-recent-first input (its first
5), reverse them so the oldest of the window comes first, and render each as a
two-line "User: ..." / "Assistant: ..." pair; the section is omitted when no
conversations are supplied; facts render as in the code. -/
def buildMemoryContextClaimC1 (recentConversations : List Conversation)
    (userMemories : List Memory) : String :=
  (if recentConversations.length > 0 then
    ("\n\nRecent conversation history:\n")
      ++ strConcat (((recentConversations.take 5).reverse).map
        (fun conv => ("User: ") ++ conv.message ++ ("\n")
          ++ ("Assistant: ") ++ conv.response ++ ("\n")))
  else "") ++ factsSectionR userMemories

/-- Test fixture: a conversation record with the given message and response. -/
def mkConv (m r : String) : Conversation :=
  { id := "", user_id := "u", message := m, response := r, created_at := "", metadata := [] }

/-- Test fixture: seven records, most-recent-first (`m1` is the newest). -/
def convs7 : List Conversation :=
  [mkConv ("m1") ("r1"), mkConv ("m2") ("r2"), mkConv ("m3") ("r3"), mkConv ("m4") ("r4"),
   mkConv ("m5") ("r5"), mkConv ("m6") ("r6"), mkConv ("m7") ("r7")]

/-- Test fixture: the stored fact `(user="u1", key="color", value="blue")`. -/
def colorMem : Memory :=
  { id := "", user_id := "u1", key := "color", value := "blue",
    created_at := "", updated_at := "" }

/-- Test fixture: an environment where every external call succeeds. -/
def envOk : ChatEnv :=
  { status := { isRunning := true, modelAvailable := true, error := none }
    recallConvsResult := Except.ok []
    recallMemsResult := Except.ok []
    generateResult := Except.ok ("  hello there  ")
    streamBehavior := StreamBehavior.success [("he"), ("llo")]
    insertOk := true }

/-- Test fixture: a valid non-streaming request body. -/
def bodyPlain : ChatRequestBody :=
  { message := some ("hi"), userId := some ("u1"), stream := false }

/-- Test fixture: a valid streaming request body. -/
def bodyStream : ChatRequestBody :=
  { message := some ("hi"), userId := some ("u1"), stream := true }

/-- Build a `ChatEnv` from its fields (every environment is of this form). -/
def mkEnv (isRunning modelAvailable : Bool) (err : Option String)
    (rc : Except String (List Conversation)) (rm : Except String (List Memory))
    (gen : Except String String) (sb : StreamBehavior) (ins : Bool) : ChatEnv :=
  { status := { isRunning := isRunning, modelAvailable := modelAvailable, error := err }
    recallConvsResult := rc, recallMemsResult := rm, generateResult := gen
    streamBehavior := sb, insertOk := ins }

/-- Build a `ChatRequestBody` from its fields. -/
def mkBody (message userId : Option String) (stream : Bool) : ChatRequestBody :=
  { message := message, userId := userId, stream := stream }

theorem strAppend_assoc (a b c : String) : a ++ b ++ c = a ++ (b ++ c) := by
  cases a with | mk la => cases b with | mk lb => cases c with | mk lc =>
  show String.mk (la ++ lb ++ lc) = String.mk (la ++ (lb ++ lc))
  rw [List.append_assoc]

theorem strAppend_nilL (s : String) : ("" : String) ++ s = s := by
  cases s with | mk ls =>
  show String.mk ([] ++ ls) = String.mk ls
  rw [List.nil_append]

theorem strAppend_nilR (s : String) : s ++ ("" : String) = s := by
  cases s with | mk ls =>
  show String.mk (ls ++ []) = String.mk ls
  rw [List.append_nil]

theorem foldl_append_eq_concat (f : String → α → String) (g : α → String)
    (hf : ∀ acc x, f acc x = acc ++ g x) :
    ∀ (l : List α) (init : String), l.foldl f init = init ++ strConcat (l.map g) := by
  intro l
  induction l with
  | nil => intro init; simp [strConcat, strAppend_nilR]
  | cons x xs ih =>
    intro init
    simp only [List.foldl_cons, List.map_cons, strConcat, ih, hf]
    rw [strAppend_assoc]

theorem foldl_id_eq_strConcat (cs : List String) :
    cs.foldl (fun acc c => acc ++ c) ("" : String) = strConcat cs := by
  rw [foldl_append_eq_concat (fun acc c => acc ++ c) id (fun _ _ => rfl) cs ""]
  rw [List.map_id, strAppend_nilL]

theorem strConcat_append (a b : List String) :
    strConcat (a ++ b) = strConcat a ++ strConcat b := by
  induction a with
  | nil => rw [List.nil_append]; exact (strAppend_nilL _).symm
  | cons x xs ih =>
    show x ++ strConcat (xs ++ b) = x ++ strConcat xs ++ strConcat b
    rw [ih]
    exact (strAppend_assoc x (strConcat xs) (strConcat b)).symm

theorem strConcat_map_of_mem (g : α → String) {l : List α} {x : α} (hx : x ∈ l) :
    ∃ s1 s2, strConcat (l.map g) = s1 ++ g x ++ s2 := by
  obtain ⟨l1, l2, rfl⟩ := List.append_of_mem hx
  refine ⟨strConcat (l1.map g), strConcat (l2.map g), ?_⟩
  rw [List.map_append, strConcat_append, List.map_cons]
  show _ ++ (g x ++ _) = _
  rw [strAppend_assoc]

theorem buildMemoryContext_sections (userId : String) (convs : List Conversation)
    (mems : List Memory) :
    buildMemoryContext userId convs mems = historySectionR convs ++ factsSectionR mems := by
  have h1 : ∀ init : String,
      ((jsSliceLast 5 convs).enum).foldl
        (fun ctx p => ctx ++ Nat.repr (p.1 + 1) ++ (". User: ") ++ p.2.message ++ ("\n")
          ++ ("   Hue: ") ++ p.2.response ++ ("\n")) init
        = init ++ strConcat (((jsSliceLast 5 convs).enum).map renderPairR) := by
    intro init
    refine foldl_append_eq_concat _ _ ?_ _ init
    intro acc p
    simp [renderPairR, strAppend_assoc]
  have h2 : ∀ init : String,
      mems.foldl (fun ctx m => ctx ++ ("- ") ++ m.key ++ (": ") ++ m.value ++ ("\n")) init
        = init ++ strConcat (mems.map factLineR) := by
    intro init
    refine foldl_append_eq_concat _ _ ?_ _ init
    intro acc m
    simp [factLineR, strAppend_assoc]
  simp only [buildMemoryContext]
  by_cases hc : convs.length > 0 <;> by_cases hm : mems.length > 0 <;>
    simp only [hc, hm, if_true, if_false, historySectionR, factsSectionR, h1, h2] <;>
    simp [strAppend_assoc, strAppend_nilL, strAppend_nilR]

/-- C1 (amended): for every supplied sequence of conversation records, the
history section renders the *last* `min 5 n` elements of the supplied array
(`slice(-5)`) — which for a most-recent-first input are its 5 *oldest* records
— in the array's own order (so the most recent of the window comes first, not
last), each as a numbered "N. User: ..." / "   Hue: ..." two-line pair; no
reversal is applied.  The facts section follows as "- key: value" lines; each
section's header is omitted when its input is empty. -/
theorem buildMemoryContext_renders_slice_in_input_order :
    ∀ (userId : String) (convs : List Conversation) (mems : List Memory),
      buildMemoryContext userId convs mems = historySectionR convs ++ factsSectionR mems ∧
      (jsSliceLast 5 convs).length = min 5 convs.length ∧
      jsSliceLast 5 convs <:+ convs := by
  intro u convs mems
  refine ⟨buildMemoryContext_sections u convs mems, ?_, List.drop_suffix _ _⟩
  simp only [jsSliceLast, List.length_drop]
  omega

/-- C1 (counterexample): on seven most-recent-first records `m1..m7` (with
`m1` the newest), the rendered history is not the claimed
"5 most recent, reversed, as User:/Assistant: pairs" rendering; in a
format-independent way, the newest record `m1` does not occur anywhere in the
code's output while the oldest record `m7` does — the claimed rendering has it
the other way around. -/
theorem buildMemoryContext_claimC1_counterexample :
    buildMemoryContext ("u") convs7 [] ≠ buildMemoryContextClaimC1 convs7 [] ∧
    containsStr (buildMemoryContext ("u") convs7 []) ("m1") = false ∧
    containsStr (buildMemoryContext ("u") convs7 []) ("m7") = true ∧
    containsStr (buildMemoryContextClaimC1 convs7 []) ("m1") = true ∧
    containsStr (buildMemoryContextClaimC1 convs7 []) ("m7") = false := by
  decide

/-- C7 (counterexample): a store failure on a direct GET `/memories/:userId`
read is answered with status 200 and an empty list, not with a 500 error. -/
theorem getMemories_storeFailure_counterexample :
    (getMemoriesForUser (Except.error ("connection refused"))).1 ≠ 500 ∧
    getMemoriesForUser (Except.error ("connection refused"))
      = (200, MemoriesReply.ok []) := by
  decide

/-- C7 (amended): for every store failure, the direct GET `/memories/:userId`
read degrades to a 200 reply with an empty memories list — exactly the same
empty-result degradation that chat-context reads get from `recallAllMemories`;
no 500 is produced for a store failure. -/
theorem getMemories_storeFailure_degrades :
    ∀ e : String,
      getMemoriesForUser (Except.error e) = (200, MemoriesReply.ok []) ∧
      recallAllMemories (Except.error e) = [] := by
  intro e
  exact ⟨rfl, rfl⟩

/-- C9 (counterexample): the Context Builder renders the fact
`(color, blue)` as the line "- color: blue", not as a line "color: blue": the
rendered context block has no line equal to "color: blue". -/
theorem factLine_counterexample :
    ((linesOf (buildMemoryContext ("u1") [] [colorMem])).contains ("color: blue")) = false ∧
    ((linesOf (buildMemoryContext ("u1") [] [colorMem])).contains ("- color: blue")) = true := by
  decide

/-- C9 (amended): every stored fact appears in the assembled prompt as its
"- key: value" line; in particular, for the user with stored fact
`(color, blue)`, the prompt assembled before backend dispatch contains the
text "color: blue" (inside the context-block line "- color: blue"). -/
theorem chat_prompt_contains_fact_line :
    (∀ (userId message : String) (convs : List Conversation) (mems : List Memory)
        (mem : Memory), mem ∈ mems →
        ∃ pre post, chatFullPrompt userId message convs mems = pre ++ factLineR mem ++ post) ∧
    (∃ pre post, chatFullPrompt ("u1") ("what is my favorite color") [] [colorMem]
        = pre ++ ("color: blue") ++ post) ∧
    ((linesOf (buildMemoryContext ("u1") [] [colorMem])).contains ("- color: blue")) = true := by
  have main : ∀ (userId message : String) (convs : List Conversation) (mems : List Memory)
      (mem : Memory), mem ∈ mems →
      ∃ pre post, chatFullPrompt userId message convs mems = pre ++ factLineR mem ++ post := by
    intro userId message convs mems mem hmem
    obtain ⟨s1, s2, hsplit⟩ := strConcat_map_of_mem factLineR hmem
    have hlen : mems.length > 0 := List.length_pos.mpr (List.ne_nil_of_mem hmem)
    refine ⟨huePersona.systemPrompt ++ ("\n\n") ++ historySectionR convs
      ++ ("\n\nUser preferences and memories:\n") ++ s1,
      s2 ++ ("\n\nUser: ") ++ message ++ ("\nHue:"), ?_⟩
    rw [chatFullPrompt, buildMemoryContext_sections userId convs mems]
    unfold factsSectionR
    rw [if_pos hlen, hsplit]
    simp [strAppend_assoc]
  refine ⟨main, ?_, by decide⟩
  obtain ⟨pre, post, hp⟩ :=
    main ("u1") ("what is my favorite color") [] [colorMem] colorMem (by decide)
  refine ⟨pre ++ ("- "), ("\n") ++ post, ?_⟩
  rw [hp]
  show _ = pre ++ ("- ") ++ ("color: blue") ++ (("\n") ++ post)
  rw [strAppend_assoc, strAppend_assoc, strAppend_assoc]
  rfl

/-- C9 (witness for the amended theorem): the fact line of `(color, blue)`
occurs in the concrete prompt assembled for user `u1`. -/
theorem chat_prompt_contains_fact_line_witness :
    ∃ pre post, chatFullPrompt ("u1") ("hi") [] [colorMem]
      = pre ++ factLineR colorMem ++ post :=
  chat_prompt_contains_fact_line.1 ("u1") ("hi") [] [colorMem] colorMem (by decide)

theorem sameUserKey_symm (a b : Memory) : sameUserKey a b = sameUserKey b a := by
  unfold sameUserKey
  rw [show (a.user_id == b.user_id) = (b.user_id == a.user_id) from Bool.beq_comm,
    show (a.key == b.key) = (b.key == a.key) from Bool.beq_comm]

theorem factsUnique_map (f : Memory → Memory)
    (hf : ∀ m, (f m).user_id = m.user_id ∧ (f m).key = m.key) (l : List Memory) :
    factsUnique (l.map f) = factsUnique l := by
  induction l with
  | nil => rfl
  | cons m rest ih =>
    show (!(rest.map f).any (sameUserKey (f m)) && factsUnique (rest.map f))
      = (!rest.any (sameUserKey m) && factsUnique rest)
    have hpt : ∀ x, sameUserKey (f m) (f x) = sameUserKey m x := by
      intro x
      unfold sameUserKey
      rw [(hf m).1, (hf m).2, (hf x).1, (hf x).2]
    rw [ih, List.any_map, show (sameUserKey (f m) ∘ f) = sameUserKey m from funext hpt]

theorem factsUnique_append_single (l : List Memory) (x : Memory) :
    factsUnique (l ++ [x]) = (factsUnique l && !(l.any (sameUserKey x))) := by
  induction l with
  | nil => rfl
  | cons m rest ih =>
    show (!(rest ++ [x]).any (sameUserKey m) && factsUnique (rest ++ [x]))
      = ((!rest.any (sameUserKey m) && factsUnique rest)
          && !(sameUserKey x m || rest.any (sameUserKey x)))
    rw [List.any_append, ih, List.any_cons, List.any_nil,
      show sameUserKey x m = sameUserKey m x from sameUserKey_symm x m]
    cases rest.any (sameUserKey m) <;> cases factsUnique rest <;>
      cases rest.any (sameUserKey x) <;> cases sameUserKey m x <;> rfl

theorem factsUnique_filter (p : Memory → Bool) (l : List Memory)
    (h : factsUnique l = true) : factsUnique (l.filter p) = true := by
  induction l with
  | nil => exact h
  | cons m rest ih =>
    simp only [factsUnique, Bool.and_eq_true, Bool.not_eq_true'] at h
    rw [List.filter_cons]
    cases hp : p m
    · simp only [Bool.false_eq_true, if_false]
      exact ih h.2
    · simp only [if_true]
      have hno : (rest.filter p).any (sameUserKey m) = false := by
        rw [List.any_filter]
        rw [List.any_eq_false]
        intro y hy hcontra
        rw [Bool.and_eq_true] at hcontra
        exact (List.any_eq_false.mp h.1) y hy hcontra.2
      show (!(rest.filter p).any (sameUserKey m) && factsUnique (rest.filter p)) = true
      rw [hno, ih h.2]
      rfl

theorem factsUnique_store (rows : List Memory) (u k v t : String)
    (h : factsUnique rows = true) :
    factsUnique (storeMemoryModel rows u k v t) = true := by
  unfold storeMemoryModel
  cases hp : rows.any (matchesUserKey u k)
  · rw [if_neg Bool.false_ne_true]
    rw [factsUnique_append_single]
    have hsame : sameUserKey
        { id := "", user_id := u, key := k, value := v, created_at := t, updated_at := t }
        = matchesUserKey u k := by
      funext m
      unfold sameUserKey matchesUserKey
      rw [show ((u : String) == m.user_id) = (m.user_id == u) from Bool.beq_comm,
        show ((k : String) == m.key) = (m.key == k) from Bool.beq_comm]
    rw [hsame, hp, h]
    rfl
  · rw [if_pos rfl]
    have hf : ∀ m : Memory,
        ((if matchesUserKey u k m then ({ m with value := v, updated_at := t } : Memory)
          else m)).user_id = m.user_id ∧
        ((if matchesUserKey u k m then ({ m with value := v, updated_at := t } : Memory)
          else m)).key = m.key := by
      intro m
      by_cases hm : matchesUserKey u k m = true
      · rw [if_pos hm]; exact ⟨rfl, rfl⟩
      · rw [if_neg hm]; exact ⟨rfl, rfl⟩
    exact (factsUnique_map _ hf rows).trans h

theorem factsUnique_applyMemOps (ops : List MemOp) :
    ∀ rows, factsUnique rows = true → factsUnique (applyMemOps rows ops) = true := by
  induction ops with
  | nil => intro rows h; exact h
  | cons op rest ih =>
    intro rows h
    cases op with
    | storeOp u k v t => exact ih _ (factsUnique_store rows u k v t h)
    | deleteOp u k => exact ih _ (factsUnique_filter _ _ h)

theorem find?_update_of_any (u k v t : String) :
    ∀ rows : List Memory, rows.any (matchesUserKey u k) = true →
      ∃ row,
        (rows.map (fun m =>
          if matchesUserKey u k m then { m with value := v, updated_at := t } else m)).find?
            (matchesUserKey u k) = some row ∧
        row.value = v ∧ row.updated_at = t := by
  intro rows
  induction rows with
  | nil => intro h; exact absurd h Bool.false_ne_true
  | cons m rest ih =>
    intro h
    rw [List.map_cons, List.find?_cons]
    by_cases hm : matchesUserKey u k m = true
    · rw [if_pos hm]
      rw [show matchesUserKey u k ({ m with value := v, updated_at := t } : Memory)
          = matchesUserKey u k m from rfl, hm]
      exact ⟨{ m with value := v, updated_at := t }, rfl, rfl, rfl⟩
    · have hm' : matchesUserKey u k m = false := Bool.eq_false_iff.mpr hm
      rw [if_neg hm, hm']
      have h' : rest.any (matchesUserKey u k) = true := by
        rw [List.any_cons, hm'] at h
        rw [Bool.false_or] at h
        exact h
      exact ih h'

/-- C6: starting from an empty `memories` table, every sequence of
`storeMemory`/`deleteMemory` operations leaves at most one fact per
`(user, key)` pair; and when the key is already present, `storeMemory`
replaces the row in place — the table keeps its size and the row for the pair
carries the new value and the new `updated_at` timestamp — rather than adding
a second row. -/
theorem memories_unique_per_user_key :
    (∀ ops : List MemOp, factsUnique (applyMemOps [] ops) = true) ∧
    (∀ (rows : List Memory) (u k v t : String),
      rows.any (matchesUserKey u k) = true →
      (storeMemoryModel rows u k v t).length = rows.length ∧
      ∃ row, findFact (storeMemoryModel rows u k v t) u k = some row ∧
        row.value = v ∧ row.updated_at = t) := by
  constructor
  · intro ops
    exact factsUnique_applyMemOps ops [] rfl
  · intro rows u k v t h
    unfold storeMemoryModel findFact
    rw [if_pos h]
    exact ⟨List.length_map _ _, find?_update_of_any u k v t rows h⟩

theorem postChat_stream_success_eq (err : Option String)
    (rc : Except String (List Conversation)) (rm : Except String (List Memory))
    (gen : Except String String) (ins : Bool) (m u : String) (cs : List String)
    (hm0 : m ≠ "") (hu0 : u ≠ "") :
    postChat (mkEnv true true err rc rm gen (StreamBehavior.success cs) ins)
      (mkBody (some m) (some u) true) =
      { reply := ChatReply.streamBody cs
        events := [Event.checkStatus, Event.recallConversations u 5, Event.recallMemories u,
          Event.generate (chatFullPrompt u m (recallRecentConversations rc)
            (recallAllMemories rm)),
          Event.insertConversation u m (strConcat cs)]
        appended := if ins then [mkConversation u m (strConcat cs)] else [] } := by
  dsimp only [postChat, mkEnv, mkBody, falsyOpt]
  rw [beq_false_of_ne hm0, beq_false_of_ne hu0]
  rw [if_neg (by decide), if_neg (by decide), if_neg (by decide), if_pos rfl]
  rw [foldl_id_eq_strConcat]
  rfl

theorem postChat_stream_failed_eq (err : Option String)
    (rc : Except String (List Conversation)) (rm : Except String (List Memory))
    (gen : Except String String) (ins : Bool) (m u : String) (delivered : List String)
    (hm0 : m ≠ "") (hu0 : u ≠ "") :
    postChat (mkEnv true true err rc rm gen (StreamBehavior.failed delivered) ins)
      (mkBody (some m) (some u) true) =
      { reply := ChatReply.streamBody (delivered ++ [("\n\n") ++ errorResponses.modelError])
        events := [Event.checkStatus, Event.recallConversations u 5, Event.recallMemories u,
          Event.generate (chatFullPrompt u m (recallRecentConversations rc)
            (recallAllMemories rm))]
        appended := [] } := by
  dsimp only [postChat, mkEnv, mkBody, falsyOpt]
  rw [beq_false_of_ne hm0, beq_false_of_ne hu0]
  rw [if_neg (by decide), if_neg (by decide), if_neg (by decide), if_pos rfl]
  rfl

theorem postChat_plain_ok_eq (err : Option String)
    (rc : Except String (List Conversation)) (rm : Except String (List Memory))
    (sb : StreamBehavior) (ins : Bool) (m u t : String)
    (hm0 : m ≠ "") (hu0 : u ≠ "") :
    postChat (mkEnv true true err rc rm (Except.ok t) sb ins)
      (mkBody (some m) (some u) false) =
      { reply := ChatReply.json (formatResponse t true)
        events := [Event.checkStatus, Event.recallConversations u 5, Event.recallMemories u,
          Event.generate (chatFullPrompt u m (recallRecentConversations rc)
            (recallAllMemories rm)),
          Event.insertConversation u m (formatResponse t true)]
        appended := if ins then [mkConversation u m (formatResponse t true)] else [] } := by
  dsimp only [postChat, mkEnv, mkBody, falsyOpt]
  rw [beq_false_of_ne hm0, beq_false_of_ne hu0]
  rw [if_neg (by decide), if_neg (by decide), if_neg (by decide), if_neg (by decide)]
  rfl

theorem postChat_plain_err_eq (err : Option String)
    (rc : Except String (List Conversation)) (rm : Except String (List Memory))
    (sb : StreamBehavior) (ins : Bool) (m u e : String)
    (hm0 : m ≠ "") (hu0 : u ≠ "") :
    postChat (mkEnv true true err rc rm (Except.error e) sb ins)
      (mkBody (some m) (some u) false) =
      { reply := ChatReply.httpError 500 ("Failed to process chat request") (some e)
        events := [Event.checkStatus, Event.recallConversations u 5, Event.recallMemories u,
          Event.generate (chatFullPrompt u m (recallRecentConversations rc)
            (recallAllMemories rm))]
        appended := [] } := by
  dsimp only [postChat, mkEnv, mkBody, falsyOpt]
  rw [beq_false_of_ne hm0, beq_false_of_ne hu0]
  rw [if_neg (by decide), if_neg (by decide), if_neg (by decide), if_neg (by decide)]
  rfl

/-- C4: a `/chat` request whose `message` or `userId` is missing or empty is
answered 400 with the missing-fields error; no external call happens (the
trace is empty, so neither the backend nor the store is contacted) and no
conversation row is created. -/
theorem chat_invalid_request_400 :
    ∀ (env : ChatEnv) (body : ChatRequestBody),
      falsyOpt body.message = true ∨ falsyOpt body.userId = true →
      postChat env body =
        { reply := ChatReply.httpError 400
            ("Missing required fields: message and userId") none
          events := [], appended := [] } := by
  intro env body h
  unfold postChat
  rcases h with h | h
  · rw [h, Bool.true_or, if_pos rfl]
  · rw [h, Bool.or_true, if_pos rfl]

/-- C4 (witness): a request with no `message` field is rejected with 400 and
an empty trace. -/
theorem chat_invalid_request_400_witness :
    postChat envOk { message := none, userId := some ("u1"), stream := false } =
      { reply := ChatReply.httpError 400
          ("Missing required fields: message and userId") none
        events := [], appended := [] } :=
  chat_invalid_request_400 envOk
    { message := none, userId := some ("u1"), stream := false } (Or.inl (by decide))

/-- C5: for a validated request, an unreachable backend is answered 503 with
"Ollama is not running", and a reachable backend without the configured model
is answered 503 with the distinct "Model not available"; in both cases the
trace stops at the status probe, so no memory is fetched and nothing is
persisted. -/
theorem chat_backend_unavailable_503 :
    (∀ (modelAvailable : Bool) (err : Option String)
      (rc : Except String (List Conversation)) (rm : Except String (List Memory))
      (gen : Except String String) (sb : StreamBehavior) (ins : Bool)
      (m u : String) (stream : Bool), m ≠ "" → u ≠ "" →
      postChat (mkEnv false modelAvailable err rc rm gen sb ins)
        (mkBody (some m) (some u) stream) =
        { reply := ChatReply.httpError 503 ("Ollama is not running") err
          events := [Event.checkStatus], appended := [] }) ∧
    (∀ (err : Option String)
      (rc : Except String (List Conversation)) (rm : Except String (List Memory))
      (gen : Except String String) (sb : StreamBehavior) (ins : Bool)
      (m u : String) (stream : Bool), m ≠ "" → u ≠ "" →
      postChat (mkEnv true false err rc rm gen sb ins)
        (mkBody (some m) (some u) stream) =
        { reply := ChatReply.httpError 503 ("Model not available") err
          events := [Event.checkStatus], appended := [] }) ∧
    ("Ollama is not running" : String) ≠ ("Model not available") := by
  refine ⟨?_, ?_, by decide⟩
  · intro modelAvailable err rc rm gen sb ins m u stream hm0 hu0
    dsimp only [postChat, mkEnv, mkBody, falsyOpt]
    rw [beq_false_of_ne hm0, beq_false_of_ne hu0]
    rw [if_neg (by decide), if_pos rfl]
  · intro err rc rm gen sb ins m u stream hm0 hu0
    dsimp only [postChat, mkEnv, mkBody, falsyOpt]
    rw [beq_false_of_ne hm0, beq_false_of_ne hu0]
    rw [if_neg (by decide), if_neg (by decide), if_pos rfl]

/-- C5 (witness): concrete 503 replies for a down backend and for a missing
model. -/
theorem chat_backend_unavailable_503_witness :
    postChat (mkEnv false true none (Except.ok []) (Except.ok [])
        (Except.ok ("x")) (StreamBehavior.success []) true)
      (mkBody (some ("hi")) (some ("u1")) false) =
      { reply := ChatReply.httpError 503 ("Ollama is not running") none
        events := [Event.checkStatus], appended := [] } ∧
    postChat (mkEnv true false none (Except.ok []) (Except.ok [])
        (Except.ok ("x")) (StreamBehavior.success []) true)
      (mkBody (some ("hi")) (some ("u1")) false) =
      { reply := ChatReply.httpError 503 ("Model not available") none
        events := [Event.checkStatus], appended := [] } :=
  ⟨chat_backend_unavailable_503.1 true none (Except.ok []) (Except.ok [])
      (Except.ok ("x")) (StreamBehavior.success []) true ("hi") ("u1") false
      (by decide) (by decide),
    chat_backend_unavailable_503.2.1 none (Except.ok []) (Except.ok [])
      (Except.ok ("x")) (StreamBehavior.success []) true ("hi") ("u1") false
      (by decide) (by decide)⟩

/-- C2: when a streamed exchange completes, the chunks written to the caller
are exactly the backend's chunks and the persisted row's response is their
concatenation; and whether streamed or not, a successfully completed exchange
performs exactly one conversation insert, producing exactly one row. -/
theorem chat_exchange_persisted_once :
    (∀ (err : Option String)
      (rc : Except String (List Conversation)) (rm : Except String (List Memory))
      (gen : Except String String) (m u : String) (cs : List String),
      m ≠ "" → u ≠ "" →
      (postChat (mkEnv true true err rc rm gen (StreamBehavior.success cs) true)
        (mkBody (some m) (some u) true)).reply = ChatReply.streamBody cs ∧
      (postChat (mkEnv true true err rc rm gen (StreamBehavior.success cs) true)
        (mkBody (some m) (some u) true)).appended
          = [mkConversation u m (strConcat cs)] ∧
      countInsertEvents (postChat (mkEnv true true err rc rm gen
        (StreamBehavior.success cs) true) (mkBody (some m) (some u) true)).events = 1) ∧
    (∀ (err : Option String)
      (rc : Except String (List Conversation)) (rm : Except String (List Memory))
      (sb : StreamBehavior) (m u t : String),
      m ≠ "" → u ≠ "" →
      (postChat (mkEnv true true err rc rm (Except.ok t) sb true)
        (mkBody (some m) (some u) false)).appended
          = [mkConversation u m (formatResponse t true)] ∧
      countInsertEvents (postChat (mkEnv true true err rc rm (Except.ok t) sb true)
        (mkBody (some m) (some u) false)).events = 1) := by
  constructor
  · intro err rc rm gen m u cs hm0 hu0
    rw [postChat_stream_success_eq err rc rm gen true m u cs hm0 hu0]
    exact ⟨rfl, rfl, rfl⟩
  · intro err rc rm sb m u t hm0 hu0
    rw [postChat_plain_ok_eq err rc rm sb true m u t hm0 hu0]
    exact ⟨rfl, rfl⟩

/-- C2 (witness): a concrete completed streamed exchange relays `["he","llo"]`
and persists one row holding "hello"; a concrete plain exchange persists one
row. -/
theorem chat_exchange_persisted_once_witness :
    ((postChat (mkEnv true true none (Except.ok []) (Except.ok []) (Except.ok ("x"))
        (StreamBehavior.success [("he"), ("llo")]) true)
      (mkBody (some ("hi")) (some ("u1")) true)).reply
        = ChatReply.streamBody [("he"), ("llo")] ∧
      (postChat (mkEnv true true none (Except.ok []) (Except.ok []) (Except.ok ("x"))
        (StreamBehavior.success [("he"), ("llo")]) true)
      (mkBody (some ("hi")) (some ("u1")) true)).appended
        = [mkConversation ("u1") ("hi") (strConcat [("he"), ("llo")])] ∧
      countInsertEvents (postChat (mkEnv true true none (Except.ok []) (Except.ok [])
        (Except.ok ("x")) (StreamBehavior.success [("he"), ("llo")]) true)
      (mkBody (some ("hi")) (some ("u1")) true)).events = 1) ∧
    ((postChat (mkEnv true true none (Except.ok []) (Except.ok [])
        (Except.ok ("  hello  ")) (StreamBehavior.success []) true)
      (mkBody (some ("hi")) (some ("u1")) false)).appended
        = [mkConversation ("u1") ("hi") (formatResponse ("  hello  ") true)] ∧
      countInsertEvents (postChat (mkEnv true true none (Except.ok []) (Except.ok [])
        (Except.ok ("  hello  ")) (StreamBehavior.success []) true)
      (mkBody (some ("hi")) (some ("u1")) false)).events = 1) :=
  ⟨chat_exchange_persisted_once.1 none (Except.ok []) (Except.ok []) (Except.ok ("x"))
      ("hi") ("u1") [("he"), ("llo")] (by decide) (by decide),
    chat_exchange_persisted_once.2 none (Except.ok []) (Except.ok [])
      (StreamBehavior.success []) ("hi") ("u1") ("  hello  ") (by decide) (by decide)⟩

/-- C3: when the backend stream raises after yielding `delivered`, the caller
receives those chunks followed by one final fallback chunk (a blank line plus
`errorResponses.modelError`), the stream ends, no conversation insert is
attempted and no row is created. -/
theorem chat_stream_failure_no_record :
    ∀ (err : Option String)
      (rc : Except String (List Conversation)) (rm : Except String (List Memory))
      (gen : Except String String) (ins : Bool) (m u : String) (delivered : List String),
      m ≠ "" → u ≠ "" →
      postChat (mkEnv true true err rc rm gen (StreamBehavior.failed delivered) ins)
        (mkBody (some m) (some u) true) =
        { reply := ChatReply.streamBody
            (delivered ++ [("\n\n") ++ errorResponses.modelError])
          events := [Event.checkStatus, Event.recallConversations u 5,
            Event.recallMemories u,
            Event.generate (chatFullPrompt u m (recallRecentConversations rc)
              (recallAllMemories rm))]
          appended := [] } ∧
      countInsertEvents (postChat (mkEnv true true err rc rm gen
        (StreamBehavior.failed delivered) ins)
        (mkBody (some m) (some u) true)).events = 0 := by
  intro err rc rm gen ins m u delivered hm0 hu0
  rw [postChat_stream_failed_eq err rc rm gen ins m u delivered hm0 hu0]
  exact ⟨rfl, rfl⟩

/-- C3 (witness): a concrete failed stream ends with the fallback notice and
creates no row. -/
theorem chat_stream_failure_no_record_witness :
    postChat (mkEnv true true none (Except.ok []) (Except.ok []) (Except.ok ("x"))
        (StreamBehavior.failed [("par"), ("tial")]) true)
      (mkBody (some ("hi")) (some ("u1")) true) =
      { reply := ChatReply.streamBody
          ([("par"), ("tial")] ++ [("\n\n") ++ errorResponses.modelError])
        events := [Event.checkStatus, Event.recallConversations ("u1") 5,
          Event.recallMemories ("u1"),
          Event.generate (chatFullPrompt ("u1") ("hi")
            (recallRecentConversations (Except.ok []))
            (recallAllMemories (Except.ok [])))]
        appended := [] } ∧
    countInsertEvents (postChat (mkEnv true true none (Except.ok []) (Except.ok [])
        (Except.ok ("x")) (StreamBehavior.failed [("par"), ("tial")]) true)
      (mkBody (some ("hi")) (some ("u1")) true)).events = 0 :=
  chat_stream_failure_no_record none (Except.ok []) (Except.ok []) (Except.ok ("x"))
    true ("hi") ("u1") [("par"), ("tial")] (by decide) (by decide)

/-- C8: when both memory reads fail, the `/chat` pipeline behaves exactly as
if both reads had returned empty lists — it still dispatches to the backend
(the `generate` call with the empty-context prompt is in the trace) instead of
aborting with an error. -/
theorem chat_store_failure_degrades :
    ∀ (err : Option String) (e1 e2 : String)
      (gen : Except String String) (sb : StreamBehavior) (ins : Bool)
      (m u : String) (stream : Bool), m ≠ "" → u ≠ "" →
      postChat (mkEnv true true err (Except.error e1) (Except.error e2) gen sb ins)
        (mkBody (some m) (some u) stream)
      = postChat (mkEnv true true err (Except.ok []) (Except.ok []) gen sb ins)
        (mkBody (some m) (some u) stream) ∧
      Event.generate (chatFullPrompt u m [] []) ∈
        (postChat (mkEnv true true err (Except.error e1) (Except.error e2) gen sb ins)
          (mkBody (some m) (some u) stream)).events := by
  intro err e1 e2 gen sb ins m u stream hm0 hu0
  cases stream
  · cases gen with
    | ok t =>
      rw [postChat_plain_ok_eq err (Except.error e1) (Except.error e2) sb ins m u t hm0 hu0,
        postChat_plain_ok_eq err (Except.ok []) (Except.ok []) sb ins m u t hm0 hu0]
      exact ⟨rfl, List.Mem.tail _ (List.Mem.tail _ (List.Mem.tail _ (List.Mem.head _)))⟩
    | error e =>
      rw [postChat_plain_err_eq err (Except.error e1) (Except.error e2) sb ins m u e hm0 hu0,
        postChat_plain_err_eq err (Except.ok []) (Except.ok []) sb ins m u e hm0 hu0]
      exact ⟨rfl, List.Mem.tail _ (List.Mem.tail _ (List.Mem.tail _ (List.Mem.head _)))⟩
  · cases sb with
    | success cs =>
      rw [postChat_stream_success_eq err (Except.error e1) (Except.error e2) gen ins m u cs hm0 hu0,
        postChat_stream_success_eq err (Except.ok []) (Except.ok []) gen ins m u cs hm0 hu0]
      exact ⟨rfl, List.Mem.tail _ (List.Mem.tail _ (List.Mem.tail _ (List.Mem.head _)))⟩
    | failed delivered =>
      rw [postChat_stream_failed_eq err (Except.error e1) (Except.error e2) gen ins m u delivered hm0 hu0,
        postChat_stream_failed_eq err (Except.ok []) (Except.ok []) gen ins m u delivered hm0 hu0]
      exact ⟨rfl, List.Mem.tail _ (List.Mem.tail _ (List.Mem.tail _ (List.Mem.head _)))⟩

/-- C8 (witness): with both store reads failing, a concrete request produces
the same outcome as with empty memory, and the backend dispatch happens. -/
theorem chat_store_failure_degrades_witness :
    postChat (mkEnv true true none (Except.error ("down")) (Except.error ("down"))
        (Except.ok ("x")) (StreamBehavior.success []) true)
      (mkBody (some ("hi")) (some ("u1")) false)
    = postChat (mkEnv true true none (Except.ok []) (Except.ok [])
        (Except.ok ("x")) (StreamBehavior.success []) true)
      (mkBody (some ("hi")) (some ("u1")) false) ∧
    Event.generate (chatFullPrompt ("u1") ("hi") [] []) ∈
      (postChat (mkEnv true true none (Except.error ("down")) (Except.error ("down"))
          (Except.ok ("x")) (StreamBehavior.success []) true)
        (mkBody (some ("hi")) (some ("u1")) false)).events :=
  chat_store_failure_degrades none ("down") ("down") (Except.ok ("x"))
    (StreamBehavior.success []) true ("hi") ("u1") false (by decide) (by decide)

/-- C10: a non-streaming exchange returns and persists the backend response
with surrounding whitespace removed (`String.trim`, via `formatResponse`),
while a streamed exchange relays the chunks verbatim and persists their
untrimmed concatenation. -/
theorem chat_trims_plain_streams_verbatim :
    (∀ (err : Option String)
      (rc : Except String (List Conversation)) (rm : Except String (List Memory))
      (sb : StreamBehavior) (m u t : String),
      m ≠ "" → u ≠ "" →
      (postChat (mkEnv true true err rc rm (Except.ok t) sb true)
        (mkBody (some m) (some u) false)).reply = ChatReply.json (t.trim) ∧
      (postChat (mkEnv true true err rc rm (Except.ok t) sb true)
        (mkBody (some m) (some u) false)).appended = [mkConversation u m (t.trim)]) ∧
    (∀ (err : Option String)
      (rc : Except String (List Conversation)) (rm : Except String (List Memory))
      (gen : Except String String) (m u : String) (cs : List String),
      m ≠ "" → u ≠ "" →
      (postChat (mkEnv true true err rc rm gen (StreamBehavior.success cs) true)
        (mkBody (some m) (some u) true)).reply = ChatReply.streamBody cs ∧
      (postChat (mkEnv true true err rc rm gen (StreamBehavior.success cs) true)
        (mkBody (some m) (some u) true)).appended
          = [mkConversation u m (strConcat cs)]) := by
  constructor
  · intro err rc rm sb m u t hm0 hu0
    rw [postChat_plain_ok_eq err rc rm sb true m u t hm0 hu0]
    exact ⟨rfl, rfl⟩
  · intro err rc rm gen m u cs hm0 hu0
    rw [postChat_stream_success_eq err rc rm gen true m u cs hm0 hu0]
    exact ⟨rfl, rfl⟩

/-- C10 (witness): a concrete plain exchange returns and persists the trimmed
response "hello"; a concrete streamed exchange persists the untrimmed
concatenation "  he  llo  ". -/
theorem chat_trims_plain_streams_verbatim_witness :
    ((postChat (mkEnv true true none (Except.ok []) (Except.ok [])
        (Except.ok ("  hello  ")) (StreamBehavior.success []) true)
      (mkBody (some ("hi")) (some ("u1")) false)).reply
        = ChatReply.json (("  hello  ").trim) ∧
      (postChat (mkEnv true true none (Except.ok []) (Except.ok [])
        (Except.ok ("  hello  ")) (StreamBehavior.success []) true)
      (mkBody (some ("hi")) (some ("u1")) false)).appended
        = [mkConversation ("u1") ("hi") (("  hello  ").trim)]) ∧
    ((postChat (mkEnv true true none (Except.ok []) (Except.ok []) (Except.ok ("x"))
        (StreamBehavior.success [("  he  "), ("llo  ")]) true)
      (mkBody (some ("hi")) (some ("u1")) true)).reply
        = ChatReply.streamBody [("  he  "), ("llo  ")] ∧
      (postChat (mkEnv true true none (Except.ok []) (Except.ok []) (Except.ok ("x"))
        (StreamBehavior.success [("  he  "), ("llo  ")]) true)
      (mkBody (some ("hi")) (some ("u1")) true)).appended
        = [mkConversation ("u1") ("hi") (strConcat [("  he  "), ("llo  ")])]) :=
  ⟨chat_trims_plain_streams_verbatim.1 none (Except.ok []) (Except.ok [])
      (StreamBehavior.success []) ("hi") ("u1") ("  hello  ") (by decide) (by decide),
    chat_trims_plain_streams_verbatim.2 none (Except.ok []) (Except.ok [])
      (Except.ok ("x")) ("hi") ("u1") [("  he  "), ("llo  ")] (by decide) (by decide)⟩

/-- C6 (witness): storing `color` twice for one user keeps a single row,
holding the second value and timestamp. -/
theorem memories_unique_per_user_key_witness :
    factsUnique (applyMemOps []
      [MemOp.storeOp ("u1") ("color") ("blue") ("t1"),
       MemOp.storeOp ("u1") ("color") ("red") ("t2")]) = true ∧
    ((storeMemoryModel [colorMem] ("u1") ("color") ("red") ("t2")).length = 1 ∧
      ∃ row, findFact (storeMemoryModel [colorMem] ("u1") ("color") ("red") ("t2"))
          ("u1") ("color") = some row ∧ row.value = "red" ∧ row.updated_at = "t2") :=
  ⟨memories_unique_per_user_key.1 _,
    memories_unique_per_user_key.2 [colorMem] ("u1") ("color") ("red") ("t2") (by decide)⟩

end Hue
